import Mathlib

/-!
Verification of the role/permission data model of the school-Interface
repository (Django apps `accounts` and `spoken`).

The repository is declarative schema code.  Data rows (UserGroup,
GroupPermissions, Permission, Condition, User, Organisation, the static
role tables) are embedded as Lean structures transcribed field by field
from `src/accounts/models.py` and `src/spoken/models.py`, and the
declared foreign keys are embedded as a metadata list `schemaFKs`.
Query/write operations that the repository declares data for but does not
implement (the Role and Permission Resolver, the messaging gate, the
approval transition) are modelled from the specification text and are
marked as such in their doc comments.
-/

namespace SchoolInterface

/-- APPROVAL_STATUS choices, `src/accounts/models.py` lines 11-16. -/
inductive ApprovalStatus where
  | pending_approval
  | active
  | inactive
  | rejected
deriving DecidableEq, Repr

/-- A `UserGroup` row, `src/accounts/models.py` lines 321-341: user, group,
seven context foreign keys (value 0 in a context column is the wildcard
sentinel, per the model docstring), an approval status and an optional
approver.  The Django column `section` is spelled `section_` here because
`section` is a Lean keyword. -/
structure UserGroupRow where
  user : Nat
  group : Nat
  organisation : Nat
  state : Nat
  district : Nat
  city : Nat
  school : Nat
  classname : Nat
  section_ : Nat
  status : ApprovalStatus
  approved_by : Option Nat
deriving DecidableEq, Repr

/-- A `GroupPermissions` row, `src/accounts/models.py` lines 55-63:
group FK, permission FK, author FK. -/
structure GroupPermissionsRow where
  group : Nat
  permission : Nat
  added_by : Nat
deriving DecidableEq, Repr

/-- A `Permission` row, `src/accounts/models.py` lines 36-41:
display name and codename. -/
structure PermissionRow where
  id : Nat
  name : String
  codename : String
deriving DecidableEq, Repr

/-- The slice of database state the Resolver reads. -/
structure DB where
  userGroups : List UserGroupRow
  groupPermissions : List GroupPermissionsRow
  permissions : List PermissionRow
deriving Repr

/-- A requested scope descriptor: zero or more of the seven context
dimensions (spec section 4.1: "a scope descriptor (zero or more of:
organisation id, state id, district id, city id, school id, class id,
section id)"). -/
structure ScopeQuery where
  organisation : Option Nat
  state : Option Nat
  district : Option Nat
  city : Option Nat
  school : Option Nat
  classname : Option Nat
  section_ : Option Nat
deriving DecidableEq, Repr

/-- One context dimension is compatible when the row value is the wildcard
sentinel 0 or equals the requested value. -/
def dimCompatible (rowVal : Nat) (reqVal : Option Nat) : Bool :=
  rowVal == 0 || reqVal == some rowVal

/-- Modelled from the spec: scope compatibility of a UserGroup row with a
requested scope — "for every context dimension present in the row, either
the row's value equals the requested value, or the row's value is the
wildcard sentinel" (spec section 4.1, with the wildcard sentinel being the
value 0 per the UserGroup docstring in `src/accounts/models.py`). -/
def scopeCompatible (r : UserGroupRow) (q : ScopeQuery) : Bool :=
  dimCompatible r.organisation q.organisation &&
  dimCompatible r.state q.state &&
  dimCompatible r.district q.district &&
  dimCompatible r.city q.city &&
  dimCompatible r.school q.school &&
  dimCompatible r.classname q.classname &&
  dimCompatible r.section_ q.section_

/-- Whether a group holds a permission codename through a GroupPermissions
entry referencing a Permission row with that codename
(`src/accounts/models.py` lines 36-63). -/
def groupHoldsPermission (db : DB) (g : Nat) (p : String) : Bool :=
  db.groupPermissions.any fun gp =>
    gp.group == g &&
      db.permissions.any fun pm => pm.id == gp.permission && pm.codename == p

/-- Modelled from the spec: the Role and Permission Resolver, which the
repository declares data for but does not implement.  Spec section 4.1
resolution order: (a) collect all UserGroup rows for U with status
active; (b) keep the rows whose scope is compatible with the requested
scope; (c) collect those rows' Groups; (d) grant iff any collected Group
has a GroupPermissions entry referencing the requested codename. -/
def resolve (db : DB) (u : Nat) (p : String) (q : ScopeQuery) : Bool :=
  let activeRows := db.userGroups.filter fun r =>
    r.user == u && r.status == ApprovalStatus.active
  let compatibleRows := activeRows.filter fun r => scopeCompatible r q
  let collectedGroups := compatibleRows.map UserGroupRow.group
  collectedGroups.any fun g => groupHoldsPermission db g p

/-- A UserGroup row with every context field set to the wildcard sentinel. -/
def allWildcard (r : UserGroupRow) : Bool :=
  r.organisation == 0 && r.state == 0 && r.district == 0 && r.city == 0 &&
  r.school == 0 && r.classname == 0 && r.section_ == 0

/-- Example database for the spec scenario: group 10 holds
can_view_school_report (permission id 1), and user 100 has an active
UserGroup row for group 10 scoped to school 7 with every other context
field wildcarded. -/
def exampleDB : DB :=
  { userGroups := [⟨100, 10, 0, 0, 0, 0, 7, 0, 0, ApprovalStatus.active, some 1⟩],
    groupPermissions := [⟨10, 1, 1⟩],
    permissions := [⟨1, "can view school report", "can_view_school_report"⟩] }

/-- Requested scope school=s, everything else absent. -/
def schoolQuery (s : Nat) : ScopeQuery :=
  ⟨none, none, none, none, some s, none, none⟩

/-- Example database with a fully wildcarded active row. -/
def exampleDBWild : DB :=
  { userGroups := [⟨100, 10, 0, 0, 0, 0, 0, 0, 0, ApprovalStatus.active, some 1⟩],
    groupPermissions := [⟨10, 1, 1⟩],
    permissions := [⟨1, "can view school report", "can_view_school_report"⟩] }

/-- The tables declared in `src/accounts/models.py` and
`src/spoken/models.py`, together with the imported reference tables of
`common.models` (State, District, City, Language). -/
inductive Table where
  | User
  | Permission
  | Group
  | GroupPermissions
  | Location
  | Profile
  | OrganisationType
  | Organisation
  | SchoolType
  | School
  | OrganisationAuthority
  | OrganisationCoordinator
  | SchoolAuthority
  | SchoolCoordinator
  | Teacher
  | Parent
  | ClassName
  | Section
  | ClassCoordinator
  | Student
  | ClassTeacher
  | Context
  | UserGroup
  | MessageType
  | Message
  | Condition
  | Payment
  | State
  | District
  | City
  | Language
  | NationalCoordinator
  | StateCoordinator
  | DistrictCoordinator
deriving DecidableEq, Repr

/-- The two on_delete behaviours that appear in the source. -/
inductive OnDelete where
  | protect
  | cascade
deriving DecidableEq, Repr

/-- A declared foreign key: owning table, column name, referenced table,
on_delete behaviour, and whether the column is nullable. -/
structure FKSpec where
  table : Table
  column : String
  target : Table
  onDelete : OnDelete
  nullable : Bool
deriving DecidableEq, Repr

set_option maxHeartbeats 1000000 in
/-- Every ForeignKey declaration of `src/accounts/models.py` and
`src/spoken/models.py`, transcribed in source order. -/
def schemaFKs : List FKSpec := [
  ⟨.Group, "added_by", .User, .protect, false⟩,
  ⟨.GroupPermissions, "group", .Group, .protect, false⟩,
  ⟨.GroupPermissions, "permission", .Permission, .protect, false⟩,
  ⟨.GroupPermissions, "added_by", .User, .protect, false⟩,
  ⟨.Location, "state", .State, .protect, false⟩,
  ⟨.Location, "district", .District, .protect, false⟩,
  ⟨.Location, "city", .City, .protect, false⟩,
  ⟨.Profile, "user", .User, .protect, false⟩,
  ⟨.Profile, "location", .Location, .protect, false⟩,
  ⟨.Organisation, "added_by", .User, .protect, false⟩,
  ⟨.Organisation, "type", .OrganisationType, .protect, false⟩,
  ⟨.Organisation, "organisation", .Organisation, .cascade, true⟩,
  ⟨.Organisation, "location", .Location, .protect, false⟩,
  ⟨.Organisation, "approved_by", .User, .protect, true⟩,
  ⟨.School, "added_by", .User, .protect, false⟩,
  ⟨.School, "type", .SchoolType, .protect, false⟩,
  ⟨.School, "organisation", .Organisation, .protect, true⟩,
  ⟨.School, "location", .Location, .protect, false⟩,
  ⟨.School, "approved_by", .User, .protect, true⟩,
  ⟨.OrganisationAuthority, "user", .User, .protect, false⟩,
  ⟨.OrganisationAuthority, "organisation", .Organisation, .protect, false⟩,
  ⟨.OrganisationAuthority, "approved_by", .User, .protect, true⟩,
  ⟨.OrganisationCoordinator, "user", .User, .protect, false⟩,
  ⟨.OrganisationCoordinator, "organisation", .Organisation, .protect, false⟩,
  ⟨.OrganisationCoordinator, "approved_by", .User, .protect, true⟩,
  ⟨.SchoolAuthority, "user", .User, .protect, false⟩,
  ⟨.SchoolAuthority, "school", .School, .protect, false⟩,
  ⟨.SchoolAuthority, "approved_by", .User, .protect, true⟩,
  ⟨.SchoolCoordinator, "user", .User, .protect, false⟩,
  ⟨.SchoolCoordinator, "school", .School, .protect, false⟩,
  ⟨.SchoolCoordinator, "approved_by", .User, .protect, true⟩,
  ⟨.Teacher, "user", .User, .protect, false⟩,
  ⟨.Teacher, "school", .School, .protect, false⟩,
  ⟨.Teacher, "approved_by", .User, .protect, true⟩,
  ⟨.Parent, "user", .User, .protect, false⟩,
  ⟨.Parent, "approved_by", .User, .protect, true⟩,
  ⟨.ClassCoordinator, "user", .User, .protect, false⟩,
  ⟨.ClassCoordinator, "school", .School, .protect, false⟩,
  ⟨.ClassCoordinator, "class_value", .ClassName, .protect, false⟩,
  ⟨.ClassCoordinator, "section", .Section, .protect, false⟩,
  ⟨.ClassCoordinator, "approved_by", .User, .protect, true⟩,
  ⟨.Student, "user", .User, .protect, false⟩,
  ⟨.Student, "school", .School, .protect, false⟩,
  ⟨.Student, "preferred_lang", .Language, .protect, false⟩,
  ⟨.Student, "current_class", .ClassName, .protect, false⟩,
  ⟨.Student, "division", .Section, .protect, false⟩,
  ⟨.Student, "parent", .Parent, .protect, true⟩,
  ⟨.ClassTeacher, "teacher", .Teacher, .protect, false⟩,
  ⟨.ClassTeacher, "school", .School, .protect, false⟩,
  ⟨.ClassTeacher, "class_value", .ClassName, .protect, false⟩,
  ⟨.ClassTeacher, "section", .Section, .protect, false⟩,
  ⟨.ClassTeacher, "approved_by", .User, .protect, true⟩,
  ⟨.UserGroup, "user", .User, .protect, false⟩,
  ⟨.UserGroup, "group", .Group, .protect, false⟩,
  ⟨.UserGroup, "organisation", .User, .protect, false⟩,
  ⟨.UserGroup, "state", .State, .protect, false⟩,
  ⟨.UserGroup, "district", .District, .protect, false⟩,
  ⟨.UserGroup, "city", .City, .protect, false⟩,
  ⟨.UserGroup, "school", .School, .protect, false⟩,
  ⟨.UserGroup, "classname", .ClassName, .protect, false⟩,
  ⟨.UserGroup, "section", .Section, .protect, false⟩,
  ⟨.UserGroup, "approved_by", .User, .protect, true⟩,
  ⟨.Message, "sender", .User, .cascade, false⟩,
  ⟨.Message, "sender_role", .Group, .cascade, false⟩,
  ⟨.Message, "receiver", .User, .cascade, false⟩,
  ⟨.Message, "receiver_role", .Group, .cascade, false⟩,
  ⟨.Message, "message_type", .MessageType, .cascade, false⟩,
  ⟨.Condition, "sender", .Group, .cascade, false⟩,
  ⟨.Condition, "receiver", .Group, .cascade, false⟩,
  ⟨.Payment, "school", .School, .protect, false⟩,
  ⟨.Payment, "organisation", .Organisation, .protect, false⟩,
  ⟨.Payment, "added_by", .User, .protect, false⟩,
  ⟨.NationalCoordinator, "user", .User, .protect, false⟩,
  ⟨.NationalCoordinator, "approved_by", .User, .protect, true⟩,
  ⟨.StateCoordinator, "user", .User, .protect, false⟩,
  ⟨.StateCoordinator, "state", .State, .protect, false⟩,
  ⟨.StateCoordinator, "approved_by", .User, .protect, true⟩,
  ⟨.DistrictCoordinator, "user", .User, .protect, false⟩,
  ⟨.DistrictCoordinator, "district", .District, .protect, false⟩,
  ⟨.DistrictCoordinator, "approved_by", .User, .protect, true⟩]

/-- An abstract stored row: its table, primary key, and foreign-key field
values (column name to optional referenced id; `none` for a null FK). -/
structure Row where
  table : Table
  id : Nat
  fields : List (String × Option Nat)
deriving DecidableEq, Repr

/-- Whether row `r` references entity `(t, i)` through foreign key `fk`. -/
def referencesVia (r : Row) (fk : FKSpec) (t : Table) (i : Nat) : Bool :=
  r.table == fk.table && fk.target == t &&
    r.fields.any fun f => f.1 == fk.column && f.2 == some i

/-- Whether some stored row references entity `(t, i)` through a
protect-on-delete foreign key. -/
def protectBlocked (db : List Row) (t : Table) (i : Nat) : Bool :=
  db.any fun r => schemaFKs.any fun fk =>
    fk.onDelete == OnDelete.protect && referencesVia r fk t i

/-- Deletion under the declared on_delete behaviours: a delete fails with
ProtectedError when any row references the target through a PROTECT
foreign key, and otherwise removes the target row. -/
def deleteEntity (db : List Row) (t : Table) (i : Nat) :
    Except String (List Row) :=
  if protectBlocked db t i then Except.error "ProtectedError"
  else Except.ok (db.filter fun r => !(r.table == t && r.id == i))

/-- Shape of one static role-join table: which actor column it has and
what that column references, its scope-entity foreign keys (column name
and referenced table), whether it declares a status column, the declared
default of that column, and whether it declares an approved_by column. -/
structure RoleTableSpec where
  name : Table
  actorColumn : String
  actorTarget : Table
  scopeColumns : List (String × Table)
  hasStatus : Bool
  statusDefault : Option ApprovalStatus
  hasApprovedBy : Bool
deriving DecidableEq, Repr

/-- The nine static role-join tables of `src/accounts/models.py`,
transcribed in the order the claim lists them.  Scope-entity columns
exclude `unique_id`, `preferred_lang` and `parent`, which are not scope
entities. -/
def staticRoleTables : List RoleTableSpec := [
  ⟨.OrganisationAuthority, "user", .User, [("organisation", .Organisation)],
    true, some .pending_approval, true⟩,
  ⟨.OrganisationCoordinator, "user", .User, [("organisation", .Organisation)],
    true, some .pending_approval, true⟩,
  ⟨.SchoolAuthority, "user", .User, [("school", .School)],
    true, some .pending_approval, true⟩,
  ⟨.SchoolCoordinator, "user", .User, [("school", .School)],
    true, some .pending_approval, true⟩,
  ⟨.ClassCoordinator, "user", .User,
    [("school", .School), ("class_value", .ClassName), ("section", .Section)],
    true, none, true⟩,
  ⟨.ClassTeacher, "teacher", .Teacher,
    [("school", .School), ("class_value", .ClassName), ("section", .Section)],
    true, some .pending_approval, true⟩,
  ⟨.Teacher, "user", .User, [("school", .School)],
    true, some .pending_approval, true⟩,
  ⟨.Parent, "user", .User, [],
    true, some .pending_approval, true⟩,
  ⟨.Student, "user", .User,
    [("school", .School), ("current_class", .ClassName), ("division", .Section)],
    false, none, false⟩]

/-- A `Condition` row, `src/accounts/models.py` lines 380-387: sender
group, receiver group, and two independent mode booleans, with
unique_together on (sender, receiver). -/
structure ConditionRow where
  sender : Nat
  receiver : Nat
  single_msg : Bool
  bulk_msg : Bool
deriving DecidableEq, Repr

/-- The two MessageType variants, `src/accounts/models.py` lines 352-357. -/
inductive MessageMode where
  | single
  | bulk
deriving DecidableEq, Repr

/-- Which boolean of a Condition row gates a given mode. -/
def modeAllowed (c : ConditionRow) (m : MessageMode) : Bool :=
  match m with
  | .single => c.single_msg
  | .bulk => c.bulk_msg

/-- Modelled from the spec: the messaging gate, which the repository
declares the Condition table for but does not implement.  Spec section
4.3: look up Condition by (sender group, receiver group); if absent, both
modes are disallowed; if present, single_msg/bulk_msg independently gate
the two modes. -/
def messagingAllowed (conds : List ConditionRow) (s r : Nat)
    (m : MessageMode) : Bool :=
  match conds.find? (fun c => c.sender == s && c.receiver == r) with
  | none => false
  | some c => modeAllowed c m

/-- The unique_together constraint of Condition: no two rows share the
ordered (sender, receiver) pair. -/
def conditionUnique (conds : List ConditionRow) : Prop :=
  List.Pairwise (fun a b => ¬(a.sender = b.sender ∧ a.receiver = b.receiver))
    conds

/-- Insertion into Condition under its unique_together constraint: a row
duplicating an existing ordered (sender, receiver) pair is rejected. -/
def insertCondition (conds : List ConditionRow) (c : ConditionRow) :
    Except String (List ConditionRow) :=
  if conds.any (fun d => d.sender == c.sender && d.receiver == c.receiver)
  then Except.error "unique_together violation"
  else Except.ok (c :: conds)

/-- An `Organisation` row, `src/accounts/models.py` lines 107-124 (the
lifecycle-relevant fields): author, unique name, type, optional parent
organisation, location, status defaulting to pending_approval, and an
optional approver. -/
structure OrganisationRow where
  added_by : Nat
  name_of_association : String
  type : Nat
  organisation : Option Nat
  location : Nat
  status : ApprovalStatus
  approved_by : Option Nat
deriving DecidableEq, Repr

/-- A newly created Organisation: status takes its declared default
pending_approval and approved_by is unset. -/
def newOrganisation (author : Nat) (name : String) (ty : Nat)
    (parent : Option Nat) (loc : Nat) : OrganisationRow :=
  ⟨author, name, ty, parent, loc, ApprovalStatus.pending_approval, none⟩

/-- Modelled from the spec: the approval transition, which the repository
declares the status/approved_by columns for but does not implement.  Spec
sections 4.2 and 5: a pending row with no approver transitions to active
with approved_by set to the approver; a second approval attempt on an
already-resolved row is rejected as a conflict, and since the operation
returns an error and no updated row, the stored status and approved_by
are unchanged. -/
def approveOrganisation (o : OrganisationRow) (approver : Nat) :
    Except String OrganisationRow :=
  if o.status = ApprovalStatus.pending_approval ∧ o.approved_by = none
  then Except.ok { o with status := ApprovalStatus.active,
                          approved_by := some approver }
  else Except.error "conflict: already resolved"

/-- A `User` row, `src/accounts/models.py` lines 18-34: email declared
unique=True null=True, first and last name required (blank=False,
null=False), optional phone. -/
structure UserRow where
  id : Nat
  email : Option String
  first_name : String
  last_name : String
  phone : Option String
deriving DecidableEq, Repr

/-- Insertion of a User under the declared column constraints: first and
last name must be non-empty, and a present email must not duplicate any
present email already stored (a null email never participates in the
uniqueness check, as SQL unique columns ignore NULLs). -/
def insertUser (db : List UserRow) (u : UserRow) :
    Except String (List UserRow) :=
  if u.first_name = "" then Except.error "first_name required"
  else if u.last_name = "" then Except.error "last_name required"
  else
    match u.email with
    | none => Except.ok (u :: db)
    | some e =>
      if db.any (fun v => v.email == some e)
      then Except.error "email not unique"
      else Except.ok (u :: db)

theorem resolve_eq_true_iff (db : DB) (u : Nat) (p : String) (q : ScopeQuery) :
    resolve db u p q = true ↔
      ∃ r ∈ db.userGroups, r.user = u ∧ r.status = ApprovalStatus.active ∧
        scopeCompatible r q = true ∧ groupHoldsPermission db r.group p = true := by
  simp only [resolve, List.any_eq_true, List.mem_map, List.mem_filter,
    Bool.and_eq_true, beq_iff_eq]
  constructor
  · rintro ⟨g, ⟨r, ⟨⟨hr, hu, hs⟩, hc⟩, rfl⟩, hp⟩
    exact ⟨r, hr, hu, hs, hc, hp⟩
  · rintro ⟨r, hr, hu, hs, hc, hp⟩
    exact ⟨r.group, ⟨r, ⟨⟨hr, hu, hs⟩, hc⟩, rfl⟩, hp⟩

theorem allWildcard_scopeCompatible (r : UserGroupRow) (q : ScopeQuery)
    (h : allWildcard r = true) : scopeCompatible r q = true := by
  simp only [allWildcard, Bool.and_eq_true, beq_iff_eq] at h
  obtain ⟨⟨⟨⟨⟨⟨h1, h2⟩, h3⟩, h4⟩, h5⟩, h6⟩, h7⟩ := h
  simp [scopeCompatible, dimCompatible, h1, h2, h3, h4, h5, h6, h7]

/-- Claim C1: the Resolver grants (U, P, S) iff some active UserGroup row
for U, scope-compatible with S, belongs to a Group holding a
GroupPermissions entry for codename P; an unknown codename resolves to
denied rather than an error; and a row with school=7 and all other fields
wildcard grants at school=7 but not at school=9. -/
theorem resolver_grant_characterisation :
    (∀ (db : DB) (u : Nat) (p : String) (q : ScopeQuery),
      resolve db u p q = true ↔
        ∃ r ∈ db.userGroups, r.user = u ∧ r.status = ApprovalStatus.active ∧
          scopeCompatible r q = true ∧ groupHoldsPermission db r.group p = true) ∧
    resolve exampleDB 100 "can_view_school_report" (schoolQuery 7) = true ∧
    resolve exampleDB 100 "can_view_school_report" (schoolQuery 9) = false ∧
    resolve exampleDB 100 "unknown_codename" (schoolQuery 7) = false :=
  ⟨resolve_eq_true_iff, by decide, by decide, by decide⟩

/-- Claim C2: a UserGroup row whose status is not active never contributes
a grant — adding such a row to the database leaves every resolution
outcome unchanged, for every user, permission and requested scope. -/
theorem nonactive_row_never_grants (db : DB) (r : UserGroupRow)
    (h : r.status ≠ ApprovalStatus.active) (u : Nat) (p : String) (q : ScopeQuery) :
    resolve { db with userGroups := r :: db.userGroups } u p q =
      resolve db u p q := by
  have hfalse : (r.user == u && r.status == ApprovalStatus.active) = false := by
    simp [h]
  simp only [resolve, List.filter_cons, hfalse, Bool.false_eq_true, if_false,
    groupHoldsPermission]

/-- Witness for C2: a pending row compatible with the query and whose group
holds the permission still changes nothing. -/
theorem nonactive_row_never_grants_witness :
    (⟨100, 10, 0, 0, 0, 0, 7, 0, 0, ApprovalStatus.pending_approval, none⟩ :
        UserGroupRow).status ≠ ApprovalStatus.active ∧
    resolve { exampleDB with
        userGroups := ⟨100, 10, 0, 0, 0, 0, 7, 0, 0,
          ApprovalStatus.pending_approval, none⟩ :: exampleDB.userGroups }
      100 "can_view_school_report" (schoolQuery 9) =
      resolve exampleDB 100 "can_view_school_report" (schoolQuery 9) :=
  ⟨by decide,
    nonactive_row_never_grants exampleDB
      ⟨100, 10, 0, 0, 0, 0, 7, 0, 0, ApprovalStatus.pending_approval, none⟩
      (by decide) 100 "can_view_school_report" (schoolQuery 9)⟩

/-- Claim C3: an active UserGroup row with every context field wildcarded
grants its user every permission held by its Group, at every requested
scope. -/
theorem all_wildcard_row_grants_globally (db : DB) (r : UserGroupRow)
    (hmem : r ∈ db.userGroups) (hact : r.status = ApprovalStatus.active)
    (hwild : allWildcard r = true) (p : String) (q : ScopeQuery)
    (hperm : groupHoldsPermission db r.group p = true) :
    resolve db r.user p q = true :=
  (resolve_eq_true_iff db r.user p q).2
    ⟨r, hmem, rfl, hact, allWildcard_scopeCompatible r q hwild, hperm⟩

/-- Witness for C3 at a concrete database and an arbitrary concrete scope. -/
theorem all_wildcard_row_grants_globally_witness :
    resolve exampleDBWild 100 "can_view_school_report"
      ⟨some 3, some 4, some 5, some 6, some 9, some 2, some 8⟩ = true :=
  all_wildcard_row_grants_globally exampleDBWild
    ⟨100, 10, 0, 0, 0, 0, 0, 0, 0, ApprovalStatus.active, some 1⟩
    (by decide) (by decide) (by decide) "can_view_school_report"
    ⟨some 3, some 4, some 5, some 6, some 9, some 2, some 8⟩ (by decide)

/-- Claim C4: grant is monotonic in the set of memberships — adding any
further UserGroup row never turns a granted resolution into denied. -/
theorem resolver_grant_monotonic (db : DB) (r : UserGroupRow)
    (u : Nat) (p : String) (q : ScopeQuery)
    (h : resolve db u p q = true) :
    resolve { db with userGroups := r :: db.userGroups } u p q = true := by
  obtain ⟨r₀, hmem, hrest⟩ := (resolve_eq_true_iff db u p q).1 h
  exact (resolve_eq_true_iff { db with userGroups := r :: db.userGroups } u p q).2
    ⟨r₀, List.mem_cons_of_mem r hmem, hrest⟩

/-- Witness for C4: adding a second active, compatible, permission-holding
membership keeps the school=7 grant. -/
theorem resolver_grant_monotonic_witness :
    resolve { exampleDB with
        userGroups := ⟨100, 10, 0, 0, 0, 0, 0, 0, 0, ApprovalStatus.active,
          some 1⟩ :: exampleDB.userGroups }
      100 "can_view_school_report" (schoolQuery 7) = true :=
  resolver_grant_monotonic exampleDB
    ⟨100, 10, 0, 0, 0, 0, 0, 0, 0, ApprovalStatus.active, some 1⟩
    100 "can_view_school_report" (schoolQuery 7) (by decide)

/-- Claim C5 (evaluating the declared schema at the failing column): the
UserGroup context columns for state, district, city, school, classname and
section reference their scope-level entities, but the organisation column
is declared as a foreign key to User, not to Organisation. -/
theorem usergroup_organisation_column_targets_user :
    ((schemaFKs.filter fun fk =>
        fk.table == Table.UserGroup && fk.column == "organisation").map
      FKSpec.target = [Table.User]) ∧
    Table.User ≠ Table.Organisation ∧
    ((schemaFKs.filter fun fk => fk.table == Table.UserGroup).map
        (fun fk => (fk.column, fk.target)) =
      [("user", Table.User), ("group", Table.Group),
       ("organisation", Table.User), ("state", Table.State),
       ("district", Table.District), ("city", Table.City),
       ("school", Table.School), ("classname", Table.ClassName),
       ("section", Table.Section), ("approved_by", Table.User)]) := by
  decide

/-- Claim C6: the messaging gate allows (A, B, mode) iff a Condition row
with sender=A and receiver=B exists whose boolean for that mode is true;
absence of a row disallows both modes; insertion of a duplicate ordered
pair is rejected by unique_together; and a row for sender 1 to receiver 2
allows that direction but neither mode of the reverse direction. -/
theorem condition_gating_directional :
    (∀ (conds : List ConditionRow) (s r : Nat) (m : MessageMode),
      conditionUnique conds →
        (messagingAllowed conds s r m = true ↔
          ∃ c ∈ conds, c.sender = s ∧ c.receiver = r ∧ modeAllowed c m = true)) ∧
    (∀ (conds : List ConditionRow) (s r : Nat) (m : MessageMode),
      (∀ c ∈ conds, ¬(c.sender = s ∧ c.receiver = r)) →
        messagingAllowed conds s r m = false) ∧
    (∀ (conds : List ConditionRow) (c d : ConditionRow),
      d ∈ conds → d.sender = c.sender → d.receiver = c.receiver →
        insertCondition conds c = Except.error "unique_together violation") ∧
    messagingAllowed [⟨1, 2, true, true⟩] 1 2 MessageMode.single = true ∧
    messagingAllowed [⟨1, 2, true, true⟩] 2 1 MessageMode.single = false ∧
    messagingAllowed [⟨1, 2, true, true⟩] 2 1 MessageMode.bulk = false := by
  refine ⟨?_, ?_, ?_, by decide, by decide, by decide⟩
  · intro conds s r m huniq
    constructor
    · intro h
      rcases hf : conds.find? (fun c => c.sender == s && c.receiver == r) with
        _ | c
      · simp only [messagingAllowed, hf] at h
        exact absurd h Bool.false_ne_true
      · simp only [messagingAllowed, hf] at h
        have hmem := List.mem_of_find?_eq_some hf
        have hpred := List.find?_some hf
        simp only [Bool.and_eq_true, beq_iff_eq] at hpred
        exact ⟨c, hmem, hpred.1, hpred.2, h⟩
    · rintro ⟨c, hmem, hs, hr, hm⟩
      rcases hf : conds.find? (fun c => c.sender == s && c.receiver == r) with
        _ | c₀
      · rw [List.find?_eq_none] at hf
        exact absurd (by simp [hs, hr]) (hf c hmem)
      · simp only [messagingAllowed, hf]
        have hmem₀ := List.mem_of_find?_eq_some hf
        have hpred₀ := List.find?_some hf
        simp only [Bool.and_eq_true, beq_iff_eq] at hpred₀
        have hsymm : Symmetric fun a b : ConditionRow =>
            ¬(a.sender = b.sender ∧ a.receiver = b.receiver) := by
          intro a b hab hba
          exact hab ⟨hba.1.symm, hba.2.symm⟩
        by_cases heq : c₀ = c
        · subst heq
          exact hm
        · exact absurd ⟨hpred₀.1.trans hs.symm, hpred₀.2.trans hr.symm⟩
            (List.Pairwise.forall hsymm huniq hmem₀ hmem heq)
  · intro conds s r m habs
    rcases hf : conds.find? (fun c => c.sender == s && c.receiver == r) with
      _ | c
    · simp only [messagingAllowed, hf]
    · have hmem := List.mem_of_find?_eq_some hf
      have hpred := List.find?_some hf
      simp only [Bool.and_eq_true, beq_iff_eq] at hpred
      exact absurd ⟨hpred.1, hpred.2⟩ (habs c hmem)
  · intro conds c d hmem hs hr
    have : (conds.any fun d =>
        d.sender == c.sender && d.receiver == c.receiver) = true := by
      rw [List.any_eq_true]
      exact ⟨d, hmem, by simp [hs, hr]⟩
    simp [insertCondition, this]

/-- Witness for C6: the characterisation, absence rule and duplicate
rejection applied at concrete rows. -/
theorem condition_gating_directional_witness :
    (∃ c ∈ [(⟨1, 2, true, true⟩ : ConditionRow)],
      c.sender = 1 ∧ c.receiver = 2 ∧ modeAllowed c MessageMode.single = true) ∧
    messagingAllowed [⟨1, 2, true, true⟩] 3 4 MessageMode.bulk = false ∧
    insertCondition [⟨1, 2, true, true⟩] ⟨1, 2, false, false⟩ =
      Except.error "unique_together violation" :=
  ⟨(condition_gating_directional.1 [⟨1, 2, true, true⟩] 1 2 MessageMode.single
      (by simp [conditionUnique])).1 (by decide),
    condition_gating_directional.2.1 [⟨1, 2, true, true⟩] 3 4 MessageMode.bulk
      (by decide),
    condition_gating_directional.2.2.1 [⟨1, 2, true, true⟩]
      ⟨1, 2, false, false⟩ ⟨1, 2, true, true⟩ (by decide) rfl rfl⟩

/-- Counterexample for C7: Message.sender is a cascade foreign key that is
not the Organisation self-referential parent link, contrary to the claim
that no cascading deletes exist anywhere except that link. -/
theorem cascade_beyond_organisation_self_link :
    (⟨Table.Message, "sender", Table.User, OnDelete.cascade, false⟩ : FKSpec) ∈
      schemaFKs ∧ Table.Message ≠ Table.Organisation := by
  decide

/-- Claim C7 as amended: every declared foreign key is protect-on-delete
except Organisation's self-referential parent link and the foreign keys of
the Message and Condition tables, which cascade; and deleting an entity
that is referenced through any protect-on-delete foreign key fails. -/
theorem fk_on_delete_amended :
    ((schemaFKs.all fun fk =>
        fk.onDelete == OnDelete.protect ||
        (fk.table == Table.Organisation && fk.target == Table.Organisation) ||
        fk.table == Table.Message || fk.table == Table.Condition) = true) ∧
    ((schemaFKs.all fun fk =>
        (fk.onDelete == OnDelete.cascade) ==
        ((fk.table == Table.Organisation && fk.column == "organisation") ||
         fk.table == Table.Message || fk.table == Table.Condition)) = true) ∧
    (∀ (db : List Row) (t : Table) (i : Nat) (r : Row) (fk : FKSpec),
      r ∈ db → fk ∈ schemaFKs → fk.onDelete = OnDelete.protect →
        referencesVia r fk t i = true →
        deleteEntity db t i = Except.error "ProtectedError") := by
  refine ⟨by decide, by decide, ?_⟩
  intro db t i r fk hr hfk hprot href
  have hblock : protectBlocked db t i = true := by
    unfold protectBlocked
    rw [List.any_eq_true]
    refine ⟨r, hr, ?_⟩
    rw [List.any_eq_true]
    exact ⟨fk, hfk, by simp [hprot, href]⟩
  simp [deleteEntity, hblock]

/-- Witness for C7 as amended: a Group row referencing User 1 through the
protect-on-delete added_by key blocks deleting that user. -/
theorem fk_on_delete_amended_witness :
    deleteEntity [⟨Table.Group, 5, [("added_by", some 1)]⟩] Table.User 1 =
      Except.error "ProtectedError" :=
  fk_on_delete_amended.2.2 [⟨Table.Group, 5, [("added_by", some 1)]⟩]
    Table.User 1 ⟨Table.Group, 5, [("added_by", some 1)]⟩
    ⟨Table.Group, "added_by", Table.User, OnDelete.protect, false⟩
    (by decide) (by decide) rfl (by decide)

/-- Counterexample for C8: the Student role-join table declares neither a
status column nor an approved_by column, so it does not carry the shared
approval lifecycle the claim asserts for every listed table. -/
theorem student_lacks_approval_lifecycle :
    ((staticRoleTables.filter fun t => t.name == Table.Student).map
        (fun t => (t.hasStatus, t.hasApprovedBy)) = [(false, false)]) ∧
    (staticRoleTables.any fun t => t.name == Table.Student) = true := by
  decide

/-- Claim C8 as amended: OrganisationAuthority, OrganisationCoordinator,
SchoolAuthority, SchoolCoordinator and Teacher each bind a User to exactly
one scope entity with status defaulting to pending_approval and an
approved_by column; ClassCoordinator and ClassTeacher bind to a school,
class and section (ClassTeacher through a Teacher row rather than directly
a User, and ClassCoordinator's status column has no pending_approval
default); Parent binds a User to no scope entity; and Student binds a User
to a school, class and section but declares no status or approved_by
columns at all. -/
theorem static_role_lifecycle_amended :
    ((staticRoleTables.all fun t =>
        (t.hasStatus && t.hasApprovedBy) == !(t.name == Table.Student)) = true) ∧
    ((staticRoleTables.all fun t =>
        (t.statusDefault == some ApprovalStatus.pending_approval) ==
          (!(t.name == Table.Student) && !(t.name == Table.ClassCoordinator))) =
      true) ∧
    ((staticRoleTables.all fun t =>
        t.actorTarget ==
          (if t.name == Table.ClassTeacher then Table.Teacher else Table.User)) =
      true) ∧
    ((staticRoleTables.all fun t =>
        (t.scopeColumns.map Prod.snd ==
          (if t.name == Table.OrganisationAuthority ||
              t.name == Table.OrganisationCoordinator then [Table.Organisation]
           else if t.name == Table.SchoolAuthority ||
              t.name == Table.SchoolCoordinator ||
              t.name == Table.Teacher then [Table.School]
           else if t.name == Table.Parent then []
           else [Table.School, Table.ClassName, Table.Section]))) = true) := by
  decide

/-- Claim C9: approving a pending Organisation with no approver sets status
active and approved_by to the approver, and a second approval attempt by
any user on the resolved row is rejected as a conflict, returning no
updated row (so the stored status and approved_by stand unchanged). -/
theorem organisation_approval_once (o : OrganisationRow) (y z : Nat)
    (hp : o.status = ApprovalStatus.pending_approval)
    (ha : o.approved_by = none) :
    approveOrganisation o y =
      Except.ok { o with status := ApprovalStatus.active,
                         approved_by := some y } ∧
    approveOrganisation { o with status := ApprovalStatus.active,
                                 approved_by := some y } z =
      Except.error "conflict: already resolved" := by
  constructor
  · simp [approveOrganisation, hp, ha]
  · simp [approveOrganisation]

/-- Witness for C9: a freshly created Organisation approved by user 4, then
re-approved by user 9, at concrete values. -/
theorem organisation_approval_once_witness :
    approveOrganisation (newOrganisation 2 "Acme Trust" 1 none 3) 4 =
      Except.ok { newOrganisation 2 "Acme Trust" 1 none 3 with
                    status := ApprovalStatus.active, approved_by := some 4 } ∧
    approveOrganisation { newOrganisation 2 "Acme Trust" 1 none 3 with
                            status := ApprovalStatus.active,
                            approved_by := some 4 } 9 =
      Except.error "conflict: already resolved" :=
  organisation_approval_once (newOrganisation 2 "Acme Trust" 1 none 3) 4 9
    rfl rfl

/-- Claim C10: a User's email may be absent even though declared unique — a
user with a null email and non-empty names is always accepted, regardless
of how many stored users also have null emails; uniqueness is enforced
only between present emails; and first and last name remain required. -/
theorem user_email_nullable_unique :
    (∀ (db : List UserRow) (u : UserRow), u.email = none →
      u.first_name ≠ "" → u.last_name ≠ "" →
        insertUser db u = Except.ok (u :: db)) ∧
    (∀ (db : List UserRow) (u v : UserRow) (e : String), v ∈ db →
      v.email = some e → u.email = some e →
      u.first_name ≠ "" → u.last_name ≠ "" →
        insertUser db u = Except.error "email not unique") ∧
    (∀ (db : List UserRow) (u : UserRow), u.first_name = "" →
        insertUser db u = Except.error "first_name required") := by
  refine ⟨?_, ?_, ?_⟩
  · intro db u he hf hl
    simp [insertUser, hf, hl, he]
  · intro db u v e hv hve hue hf hl
    have hany : (db.any fun w => w.email == some e) = true := by
      rw [List.any_eq_true]
      exact ⟨v, hv, by simp [hve]⟩
    simp [insertUser, hf, hl, hue, hany]
  · intro db u hf
    simp [insertUser, hf]

/-- Witness for C10: two distinct users with absent emails are both
accepted; a duplicated present email is rejected; an empty first name is
rejected. -/
theorem user_email_nullable_unique_witness :
    insertUser [⟨1, none, "Asha", "Rao", none⟩]
        ⟨2, none, "Ravi", "Iyer", none⟩ =
      Except.ok [⟨2, none, "Ravi", "Iyer", none⟩,
                 ⟨1, none, "Asha", "Rao", none⟩] ∧
    insertUser [⟨1, some "a@x.com", "Asha", "Rao", none⟩]
        ⟨2, some "a@x.com", "Ravi", "Iyer", none⟩ =
      Except.error "email not unique" ∧
    insertUser [] ⟨3, none, "", "Iyer", none⟩ =
      Except.error "first_name required" :=
  ⟨user_email_nullable_unique.1 [⟨1, none, "Asha", "Rao", none⟩]
      ⟨2, none, "Ravi", "Iyer", none⟩ rfl (by decide) (by decide),
    user_email_nullable_unique.2.1 [⟨1, some "a@x.com", "Asha", "Rao", none⟩]
      ⟨2, some "a@x.com", "Ravi", "Iyer", none⟩
      ⟨1, some "a@x.com", "Asha", "Rao", none⟩ "a@x.com"
      (List.mem_singleton_self _) rfl rfl (by decide) (by decide),
    user_email_nullable_unique.2.2 [] ⟨3, none, "", "Iyer", none⟩ rfl⟩

end SchoolInterface
